import Mathlib

/-!
Shallow embedding of the conntrack netlink client
(`src/conntrack/src/connection.rs`, `src/conntrack/src/encoders.rs`).

Bytes are modelled as `Nat` values (< 256 wherever they are produced by the
code).  Multi-byte header fields of the netlink wire format are host-endian
in the kernel ABI; the host is modelled as little-endian (the platforms the
crate targets), which also fixes the meaning of Rust's `to_ne_bytes`.
-/

deriving instance DecidableEq for Except

/-- Netlink attribute alignment (`NLA_ALIGN`): round up to a multiple of 4. -/
def align4 (n : Nat) : Nat := (n + 3) / 4 * 4

/-- A netlink attribute as built by neli's `Nlattr<T, Buffer>`: a type code
(low 14 bits of the 16-bit type field), the nested / network-byte-order
flags (bits 15 and 14 of the type field) and a raw payload.  For a nested
attribute the payload holds the already-encoded child attributes, exactly
as neli's `Buffer` does after `ToBytes`. -/
structure Nlattr where
  type_code : Nat
  nested : Bool
  network_order : Bool
  payload : List Nat
deriving DecidableEq

/-- The 16-bit type field of the wire header: bit 15 = nested flag, bit 14 =
network-byte-order flag, bits 0-13 = type code (spec section 6, neli's
`AttrType` serialization). -/
def typeField (a : Nlattr) : Nat :=
  (if a.nested then 32768 else 0) ||| (if a.network_order then 16384 else 0) ||| a.type_code

/-- Encoding of one attribute (neli `Nlattr::to_bytes`): 16-bit length
(header + unpadded payload), 16-bit type field, payload, zero padding to a
4-byte boundary.  The two u16 fields are host-endian (little-endian host). -/
def encodeAttr (a : Nlattr) : List Nat :=
  (4 + a.payload.length) % 256 ::
  (4 + a.payload.length) / 256 % 256 ::
  typeField a % 256 ::
  typeField a / 256 % 256 ::
  (a.payload ++ List.replicate (align4 (4 + a.payload.length) - (4 + a.payload.length)) 0)

/-- `NlattrBuilder ... .nla_type(attr_type).nla_nested(nest) ... .nla_payload(payload)`
from `make_attr` in `connection.rs`: the network-byte-order flag is left at
its builder default, `false`.  A nested payload arrives already encoded
(neli serializes the payload via `ToBytes` when it is stored). -/
def make_attr (t : Nat) (nest : Bool) (payload : List Nat) : Nlattr :=
  { type_code := t, nested := nest, network_order := false, payload := payload }

/-- neli's `Nlattr::nest`: append the encoded child to the payload (the
attribute length on the wire is recomputed from the payload). -/
def Nlattr.nest (a : Nlattr) (c : Nlattr) : Nlattr :=
  { a with payload := a.payload ++ encodeAttr c }

/-- Decode failure of the attribute codec (spec: `TruncatedAttributeError`,
raised when a header or payload extends past the remaining buffer). -/
inductive CodecError where
  | TruncatedAttributeError
deriving DecidableEq

/-- The 16-bit length field read from the front of a buffer (little-endian
host order). -/
def attrLen (bytes : List Nat) : Nat := bytes.getD 0 0 + 256 * bytes.getD 1 0

/-- The 16-bit type field read from the front of a buffer. -/
def attrTf (bytes : List Nat) : Nat := bytes.getD 2 0 + 256 * bytes.getD 3 0

/-- One level of attribute-stream decoding: repeatedly read a header, slice
out `length - 4` payload bytes, skip padding to the next 4-byte boundary,
until the buffer is exhausted.  The `fuel` argument only makes the
recursion structural; `decodeAttrs` instantiates it with the buffer length,
which is an upper bound on the number of steps (every step consumes at
least 4 bytes). -/
def decodeAttrsF : Nat → List Nat → Except CodecError (List Nlattr)
  | _, [] => Except.ok []
  | 0, _ :: _ => Except.error CodecError.TruncatedAttributeError
  | fuel + 1, b0 :: bs =>
    if (b0 :: bs).length < 4 ∨ attrLen (b0 :: bs) < 4 ∨ (b0 :: bs).length < attrLen (b0 :: bs) then
      Except.error CodecError.TruncatedAttributeError
    else
      Except.map
        (fun rest =>
          { type_code := attrTf (b0 :: bs) % 16384,
            nested := Nat.testBit (attrTf (b0 :: bs)) 15,
            network_order := Nat.testBit (attrTf (b0 :: bs)) 14,
            payload := ((b0 :: bs).drop 4).take (attrLen (b0 :: bs) - 4) } :: rest)
        (decodeAttrsF fuel ((b0 :: bs).drop (align4 (attrLen (b0 :: bs)))))

/-- Decode a byte buffer into the sequence of sibling attributes at one
nesting level (spec section 4.1, `Decode`). -/
def decodeAttrs (bytes : List Nat) : Except CodecError (List Nlattr) :=
  decodeAttrsF bytes.length bytes

/-- Modelled from the spec: the attribute type enums of `crate::attributes`
(`src/attributes.rs` is not under `src/`).  The numeric values are the
ctnetlink codes; no claim depends on the exact numbers, only on which named
constant an operation selects. -/
def CtaTupleOrig : Nat := 1

/-- Modelled from the spec: `ConntrackAttr::CtaTupleReply`. -/
def CtaTupleReply : Nat := 2

/-- Modelled from the spec: `TupleAttr::CtaTupleIp`. -/
def CtaTupleIp : Nat := 1

/-- Modelled from the spec: `TupleAttr::CtaTupleProto`. -/
def CtaTupleProto : Nat := 2

/-- Modelled from the spec: `IpTupleAttr::CtaIpv4Src`. -/
def CtaIpv4Src : Nat := 1

/-- Modelled from the spec: `IpTupleAttr::CtaIpv4Dst`. -/
def CtaIpv4Dst : Nat := 2

/-- Modelled from the spec: `IpTupleAttr::CtaIpv6Src`. -/
def CtaIpv6Src : Nat := 3

/-- Modelled from the spec: `IpTupleAttr::CtaIpv6Dst`. -/
def CtaIpv6Dst : Nat := 4

/-- Modelled from the spec: `ProtoTupleAttr::CtaProtoNum`. -/
def CtaProtoNum : Nat := 1

/-- `std::net::IpAddr`: a v4 address is four octets, a v6 address sixteen
(the `octets()` byte lists, network order). -/
inductive IpAddr where
  | v4 (o1 o2 o3 o4 : Nat)
  | v6 (octets : List Nat)
deriving DecidableEq

/-- `ipv4.octets().to_vec()` / `ipv6.octets().to_vec()`. -/
def IpAddr.octets : IpAddr → List Nat
  | .v4 a b c d => [a, b, c, d]
  | .v6 os => os

/-- Well-formedness the Rust types guarantee: an `Ipv6Addr` has exactly 16
octets (an `Ipv4Addr` always contributes 4 by construction). -/
def IpAddr.wf : IpAddr → Prop
  | .v4 _ _ _ _ => True
  | .v6 os => os.length = 16

/-- `(proto as u32).to_ne_bytes()` on the (little-endian) host. -/
def u32NeBytes (v : Nat) : List Nat :=
  [v % 256, v / 256 % 256, v / 65536 % 256, v / 16777216 % 256]

/-- The `match ip { ... }` selection at the top of `Conntrack::delete`:
top-level tuple attribute type, IP attribute type, and address bytes. -/
def delete_sel (ip : IpAddr) (src : Bool) : Nat × Nat × List Nat :=
  match ip with
  | .v4 a b c d =>
    if src then (CtaTupleOrig, CtaIpv4Src, [a, b, c, d])
    else (CtaTupleReply, CtaIpv4Dst, [a, b, c, d])
  | .v6 os =>
    if src then (CtaTupleOrig, CtaIpv6Src, os)
    else (CtaTupleReply, CtaIpv6Dst, os)

/-- `let ip_attr = make_attr(attr_type, false, Buffer::from(bin))?`. -/
def delete_ip_attr (ip : IpAddr) (src : Bool) : Nlattr :=
  make_attr (delete_sel ip src).2.1 false (delete_sel ip src).2.2

/-- `let ip_tuple = make_attr(TupleAttr::CtaTupleIp, true, ip_attr)?`. -/
def delete_ip_tuple (ip : IpAddr) (src : Bool) : Nlattr :=
  make_attr CtaTupleIp true (encodeAttr (delete_ip_attr ip src))

/-- `let proto_attr = make_attr(CtaProtoNum, false, (proto as u32).to_ne_bytes())?`. -/
def delete_proto_attr (proto : Nat) : Nlattr :=
  make_attr CtaProtoNum false (u32NeBytes proto)

/-- `let proto_tuple = make_attr(TupleAttr::CtaTupleProto, true, proto_attr)?`. -/
def delete_proto_tuple (proto : Nat) : Nlattr :=
  make_attr CtaTupleProto true (encodeAttr (delete_proto_attr proto))

/-- The attribute tree `Conntrack::delete` builds before sending:
`make_attr(top_attr_type, true, ip_tuple)?.nest(&proto_tuple)?`. -/
def build_delete (proto : Nat) (ip : IpAddr) (src : Bool) : Nlattr :=
  (make_attr (delete_sel ip src).1 true (encodeAttr (delete_ip_tuple ip src))).nest
    (delete_proto_tuple proto)

/-- Errors of the flow decoder (spec section 7). -/
inductive DecodeError where
  | MissingTupleError
  | MalformedTupleError
deriving DecidableEq

/-- A decoded address: 4 IPv4 bytes or 16 IPv6 bytes. -/
inductive Addr where
  | ipv4 (bytes : List Nat)
  | ipv6 (bytes : List Nat)
deriving DecidableEq

/-- One direction of a connection: source and destination address plus the
4-byte protocol-number payload (spec section 3, `Tuple`). -/
structure Tuple where
  srcAddr : Addr
  dstAddr : Addr
  protoBytes : List Nat
deriving DecidableEq

/-- A tracked connection: original and reply tuple (spec section 3,
`CtFlow`). -/
structure CtFlow where
  origin : Tuple
  reply : Tuple
deriving DecidableEq

/-- `AttributeTree::get`: first sibling with a matching type code. -/
def getAttr (t : Nat) (tree : List Nlattr) : Option Nlattr :=
  tree.find? (fun a => a.type_code == t)

/-- Re-invoke the codec on a nested payload; a codec failure inside a tuple
surfaces as `MalformedTupleError` (spec section 4.2). -/
def asTree (bytes : List Nat) : Except DecodeError (List Nlattr) :=
  match decodeAttrs bytes with
  | Except.ok t => Except.ok t
  | Except.error _ => Except.error DecodeError.MalformedTupleError

/-- A nested attribute the tuple decoder requires. -/
def need (o : Option Nlattr) : Except DecodeError Nlattr :=
  match o with
  | some a => Except.ok a
  | none => Except.error DecodeError.MalformedTupleError

/-- Modelled from the spec: the address part of a tuple (`src/decoders.rs`
is not under `src/`).  The address family is distinguished by which type
code is present; payload widths are checked (4 bytes IPv4, 16 bytes IPv6),
anything else is `MalformedTupleError` (spec section 4.2). -/
def decodeAddr (ipTree : List Nlattr) (srcSide : Bool) : Except DecodeError Addr :=
  match getAttr (if srcSide then CtaIpv4Src else CtaIpv4Dst) ipTree with
  | some a =>
    if a.payload.length = 4 then Except.ok (Addr.ipv4 a.payload)
    else Except.error DecodeError.MalformedTupleError
  | none =>
    match getAttr (if srcSide then CtaIpv6Src else CtaIpv6Dst) ipTree with
    | some a =>
      if a.payload.length = 16 then Except.ok (Addr.ipv6 a.payload)
      else Except.error DecodeError.MalformedTupleError
    | none => Except.error DecodeError.MalformedTupleError

/-- Modelled from the spec: decoding one tuple attribute's payload
(`src/decoders.rs` is not under `src/`): locate the nested IP-tuple and
protocol-tuple attributes, then the addresses and the 4-byte protocol
number; a missing nested attribute or a wrong payload width is
`MalformedTupleError` (spec section 4.2). -/
def decodeTuple (payload : List Nat) : Except DecodeError Tuple := do
  let tree ← asTree payload
  let ipT ← need (getAttr CtaTupleIp tree)
  let ipTree ← asTree ipT.payload
  let s ← decodeAddr ipTree true
  let d ← decodeAddr ipTree false
  let pT ← need (getAttr CtaTupleProto tree)
  let pTree ← asTree pT.payload
  let pn ← need (getAttr CtaProtoNum pTree)
  if pn.payload.length = 4 then Except.ok (Tuple.mk s d pn.payload)
  else Except.error DecodeError.MalformedTupleError

/-- Modelled from the spec: `CtFlow::decode` (`src/decoders.rs` is not under
`src/`): locate the original-tuple and reply-tuple top-level attributes,
failing with `MissingTupleError` if either is absent, then decode both
tuples (spec section 4.2). -/
def CtFlow.decode (tree : List Nlattr) : Except DecodeError CtFlow := do
  let o ← match getAttr CtaTupleOrig tree with
    | some a => Except.ok a
    | none => Except.error DecodeError.MissingTupleError
  let r ← match getAttr CtaTupleReply tree with
    | some a => Except.ok a
    | none => Except.error DecodeError.MissingTupleError
  let ot ← decodeTuple o.payload
  let rt ← decodeTuple r.payload
  Except.ok (CtFlow.mk ot rt)

/-- The error type of the crate-level `Result`: transport errors from the
socket layer and decode errors from the flow decoder. -/
inductive CtError where
  | Transport (code : Nat)
  | Decode (e : DecodeError)
deriving DecidableEq

/-- One response message of a dump: `nl_payload()` is `Payload(message)`
(carrying a decoded attribute tree) or empty (acknowledgements,
end-of-dump markers). -/
structure NlMsg where
  nl_payload : Option (List Nlattr)
deriving DecidableEq

/-- The receive loop of `Conntrack::dump` over the messages the transport
yields: `result?` propagates transport errors, messages without a payload
are skipped, and `flows.push(CtFlow::decode(handle)?)` propagates the first
decode error. -/
def Conntrack.dump : List (Except CtError NlMsg) → Except CtError (List CtFlow)
  | [] => Except.ok []
  | r :: rs =>
    match r with
    | Except.error e => Except.error e
    | Except.ok msg =>
      match msg.nl_payload with
      | none => Conntrack.dump rs
      | some tree =>
        match CtFlow.decode tree with
        | Except.error e => Except.error (CtError.Decode e)
        | Except.ok f => Except.map (fun fs => f :: fs) (Conntrack.dump rs)

/-- A raw delete response message (`Nlmsghdr<u16, Buffer>`), opaque to the
code, which only logs it. -/
structure RawMsg where
  raw : List Nat
deriving DecidableEq

/-- The response handling of `Conntrack::delete`: the `?` on
`self.socket.send(...)` propagates a send-time error; the received
messages are only written to the log (`log::info!("{r:?}")`) and the
function ends with `Ok(())`. -/
def Conntrack.delete (sendResult : Except CtError (List (Except CtError RawMsg))) :
    Except CtError Unit :=
  match sendResult with
  | Except.error e => Except.error e
  | Except.ok _responses => Except.ok ()

/-- The two ctnetlink message kinds the client sends. -/
inductive CtNetlinkMessage where
  | Conntrack
  | CtDelete
deriving DecidableEq

/-- `libc::NFNETLINK_V0`. -/
def NFNETLINK_V0 : Nat := 0

/-- `libc::AF_INET`. -/
def AF_INET : Nat := 2

/-- `NlmF::DUMP` (`NLM_F_ROOT | NLM_F_MATCH`). -/
def NlmF_DUMP : Nat := 768

/-- `NlmF::ACK`. -/
def NlmF_ACK : Nat := 4

/-- `NlmF::MATCH`. -/
def NlmF_MATCH : Nat := 512

/-- The generic-netlink header (`Genlmsghdr`): command code, protocol
version, attribute list. -/
structure Genlmsghdr where
  cmd : Nat
  version : Nat
  attrs : List Nlattr
deriving DecidableEq

/-- A request as handed to `self.socket.send`: message kind, netlink flags,
generic-netlink payload. -/
structure NlRequest where
  kind : CtNetlinkMessage
  flags : Nat
  genl : Genlmsghdr
deriving DecidableEq

/-- The dump request of `Conntrack::dump`: `cmd(0)`, `NFNETLINK_V0`, empty
attribute buffer, sent as `CtNetlinkMessage::Conntrack` with `NlmF::DUMP`. -/
def dumpRequest : NlRequest :=
  { kind := CtNetlinkMessage.Conntrack,
    flags := NlmF_DUMP,
    genl := { cmd := 0, version := NFNETLINK_V0, attrs := [] } }

/-- The delete request of `Conntrack::delete`: `cmd(libc::AF_INET as u8)`,
`NFNETLINK_V0`, the built tuple attribute, sent as
`CtNetlinkMessage::CtDelete` with `NlmF::ACK | NlmF::MATCH`. -/
def deleteRequest (proto : Nat) (ip : IpAddr) (src : Bool) : NlRequest :=
  { kind := CtNetlinkMessage.CtDelete,
    flags := NlmF_ACK ||| NlmF_MATCH,
    genl := { cmd := AF_INET % 256, version := NFNETLINK_V0,
              attrs := [build_delete proto ip src] } }

/-- The serialization error `Nlattr::to_bytes` could report
(`std::io::Error`). -/
inductive SerError where
  | ioError
deriving DecidableEq

/-- `IntoBuffer for Nlattr` (`encoders.rs`): a cursor over a zero-filled
vector of the unpadded size; `_ = self.to_bytes(&mut cursor)` discards the
result, and the vector is returned either way.  On success the cursor holds
the written serialization; on failure it is left as allocated. -/
def into_buffer (unpaddedSize : Nat) (toBytesResult : Except SerError (List Nat)) : List Nat :=
  match toBytesResult with
  | Except.ok written => written
  | Except.error _ => List.replicate unpaddedSize 0

/-- Payload bytes of a well-formed dump entry used in concrete runs: an
IP tuple (source 1.2.3.4, destination 5.6.7.8) and a protocol tuple
(protocol number payload `[0,0,0,6]`), encoded as siblings. -/
def exTupleBytes : List Nat :=
  encodeAttr (make_attr CtaTupleIp true
    (encodeAttr (make_attr CtaIpv4Src false [1, 2, 3, 4]) ++
     encodeAttr (make_attr CtaIpv4Dst false [5, 6, 7, 8]))) ++
  encodeAttr (make_attr CtaTupleProto true
    (encodeAttr (make_attr CtaProtoNum false [0, 0, 0, 6])))

/-- A dump entry carrying both tuples: decodes to a `CtFlow`. -/
def exGoodTree : List Nlattr :=
  [make_attr CtaTupleOrig true exTupleBytes, make_attr CtaTupleReply true exTupleBytes]

/-- A dump entry missing the reply tuple: decoding yields
`MissingTupleError`. -/
def exBadTree : List Nlattr :=
  [make_attr CtaTupleOrig true exTupleBytes]

/-- The `CtFlow` value `exGoodTree` decodes to. -/
def exFlow : CtFlow :=
  { origin := { srcAddr := Addr.ipv4 [1, 2, 3, 4], dstAddr := Addr.ipv4 [5, 6, 7, 8],
                protoBytes := [0, 0, 0, 6] },
    reply := { srcAddr := Addr.ipv4 [1, 2, 3, 4], dstAddr := Addr.ipv4 [5, 6, 7, 8],
               protoBytes := [0, 0, 0, 6] } }

example : CtFlow.decode exGoodTree = Except.ok exFlow := by decide

example : CtFlow.decode exBadTree = Except.error DecodeError.MissingTupleError := by decide

/-! Helper lemmas about the attribute codec. -/

theorem align4_ge (n : Nat) : n ≤ align4 n := by
  unfold align4; omega

theorem encodeAttr_length (a : Nlattr) :
    (encodeAttr a).length = align4 (4 + a.payload.length) := by
  have h := align4_ge (4 + a.payload.length)
  simp [encodeAttr, List.length_append, List.length_replicate]
  omega

theorem decodeAttrsF_eq (fuel : Nat) :
    ∀ bytes : List Nat, bytes.length ≤ fuel → decodeAttrsF fuel bytes = decodeAttrs bytes := by
  induction fuel using Nat.strong_induction_on with
  | _ fuel ih =>
    intro bytes hle
    match fuel, bytes with
    | fuel, [] =>
      cases fuel <;> rfl
    | 0, b :: bs =>
      simp at hle
    | f + 1, b :: bs =>
      simp only [List.length_cons] at hle
      show decodeAttrsF (f + 1) (b :: bs) = decodeAttrsF (bs.length + 1) (b :: bs)
      simp only [decodeAttrsF]
      split
      · rfl
      · rename_i hcond
        have hal := align4_ge (attrLen (b :: bs))
        have hdl : ((b :: bs).drop (align4 (attrLen (b :: bs)))).length ≤ bs.length := by
          rw [List.length_drop]
          simp only [List.length_cons] at hcond ⊢
          omega
        have hlf : ((b :: bs).drop (align4 (attrLen (b :: bs)))).length ≤ f := by
          rw [List.length_drop]
          simp only [List.length_cons] at hcond ⊢
          omega
        rw [ih f (by omega) _ hlf, ih bs.length (by omega) _ hdl]

theorem decodeAttrs_cons (b : Nat) (bs : List Nat) :
    decodeAttrs (b :: bs) =
      if (b :: bs).length < 4 ∨ attrLen (b :: bs) < 4 ∨ (b :: bs).length < attrLen (b :: bs) then
        Except.error CodecError.TruncatedAttributeError
      else
        Except.map
          (fun rest =>
            { type_code := attrTf (b :: bs) % 16384,
              nested := Nat.testBit (attrTf (b :: bs)) 15,
              network_order := Nat.testBit (attrTf (b :: bs)) 14,
              payload := ((b :: bs).drop 4).take (attrLen (b :: bs) - 4) } :: rest)
          (decodeAttrs ((b :: bs).drop (align4 (attrLen (b :: bs))))) := by
  show decodeAttrsF (bs.length + 1) (b :: bs) = _
  simp only [decodeAttrsF]
  split
  · rfl
  · rename_i hcond
    have hal := align4_ge (attrLen (b :: bs))
    have hdl : ((b :: bs).drop (align4 (attrLen (b :: bs)))).length ≤ bs.length := by
      rw [List.length_drop]
      simp only [List.length_cons] at hcond ⊢
      omega
    rw [decodeAttrsF_eq bs.length _ hdl]

theorem attrLen_cons4 (x0 x1 x2 x3 : Nat) (t : List Nat) :
    attrLen (x0 :: x1 :: x2 :: x3 :: t) = x0 + 256 * x1 := by
  simp [attrLen]

theorem attrTf_cons4 (x0 x1 x2 x3 : Nat) (t : List Nat) :
    attrTf (x0 :: x1 :: x2 :: x3 :: t) = x2 + 256 * x3 := by
  simp [attrTf]

theorem drop4_cons (x0 x1 x2 x3 : Nat) (t : List Nat) :
    (x0 :: x1 :: x2 :: x3 :: t).drop 4 = t := rfl

theorem drop_align_cons4 (x0 x1 x2 x3 n : Nat) (pl pad rest : List Nat)
    (h : 4 + pl.length + pad.length = n) :
    (x0 :: x1 :: x2 :: x3 :: (pl ++ (pad ++ rest))).drop n = rest := by
  rw [show x0 :: x1 :: x2 :: x3 :: (pl ++ (pad ++ rest)) =
      (x0 :: x1 :: x2 :: x3 :: (pl ++ pad)) ++ rest by simp]
  apply List.drop_left'
  simp
  omega

/-- One encoded attribute followed by arbitrary further bytes decodes to
that attribute followed by the decoding of the remaining bytes, provided
the length and type fields fit in 16 bits and the type field decomposes
into the attribute's flags and type code.  This is the padding-insensitive
round-trip at one nesting level. -/
theorem decodeAttrs_encode_append (a : Nlattr) (rest : List Nat)
    (hlen : 4 + a.payload.length < 65536)
    (htf : typeField a < 65536)
    (htc : typeField a % 16384 = a.type_code)
    (h15 : Nat.testBit (typeField a) 15 = a.nested)
    (h14 : Nat.testBit (typeField a) 14 = a.network_order) :
    decodeAttrs (encodeAttr a ++ rest) = Except.map (fun l => a :: l) (decodeAttrs rest) := by
  have hal := align4_ge (4 + a.payload.length)
  have hshape : encodeAttr a ++ rest =
      (4 + a.payload.length) % 256 :: (4 + a.payload.length) / 256 % 256 ::
      typeField a % 256 :: typeField a / 256 % 256 ::
      (a.payload ++
        (List.replicate (align4 (4 + a.payload.length) - (4 + a.payload.length)) 0 ++ rest)) := by
    simp [encodeAttr, List.cons_append, List.append_assoc]
  rw [hshape, decodeAttrs_cons]
  simp only [attrLen_cons4, attrTf_cons4, List.length_cons, List.length_append,
    List.length_replicate]
  have e1 : (4 + a.payload.length) % 256 + 256 * ((4 + a.payload.length) / 256 % 256) =
      4 + a.payload.length := by omega
  have e2 : typeField a % 256 + 256 * (typeField a / 256 % 256) = typeField a := by omega
  rw [e1, e2]
  split
  · rename_i hcontra
    exfalso
    omega
  · rw [drop4_cons]
    rw [List.take_left' (show (a.payload).length = 4 + a.payload.length - 4 by omega)]
    rw [drop_align_cons4 _ _ _ _ _ _ _ _ (by rw [List.length_replicate]; omega)]
    rw [htc, h15, h14]

/-- Round-trip for a single encoded attribute. -/
theorem decodeAttrs_encode (a : Nlattr)
    (hlen : 4 + a.payload.length < 65536)
    (htf : typeField a < 65536)
    (htc : typeField a % 16384 = a.type_code)
    (h15 : Nat.testBit (typeField a) 15 = a.nested)
    (h14 : Nat.testBit (typeField a) 14 = a.network_order) :
    decodeAttrs (encodeAttr a) = Except.ok [a] := by
  have h := decodeAttrs_encode_append a [] hlen htf htc h15 h14
  rw [List.append_nil] at h
  rw [h]
  rfl

/-- Round-trip for two encoded sibling attributes. -/
theorem decodeAttrs_encode_pair (a b : Nlattr)
    (halen : 4 + a.payload.length < 65536)
    (hatf : typeField a < 65536)
    (hatc : typeField a % 16384 = a.type_code)
    (ha15 : Nat.testBit (typeField a) 15 = a.nested)
    (ha14 : Nat.testBit (typeField a) 14 = a.network_order)
    (hblen : 4 + b.payload.length < 65536)
    (hbtf : typeField b < 65536)
    (hbtc : typeField b % 16384 = b.type_code)
    (hb15 : Nat.testBit (typeField b) 15 = b.nested)
    (hb14 : Nat.testBit (typeField b) 14 = b.network_order) :
    decodeAttrs (encodeAttr a ++ encodeAttr b) = Except.ok [a, b] := by
  rw [decodeAttrs_encode_append a _ halen hatf hatc ha15 ha14]
  rw [decodeAttrs_encode b hblen hbtf hbtc hb15 hb14]
  rfl

/-- The address byte list selected by `Conntrack::delete` has the length of
the address family: 4 octets for IPv4, 16 for IPv6. -/
theorem delete_bin_length (ip : IpAddr) (src : Bool) (hip : ip.wf) :
    (delete_sel ip src).2.2.length = 4 ∨ (delete_sel ip src).2.2.length = 16 := by
  cases ip with
  | v4 a b c d => cases src <;> simp [delete_sel]
  | v6 os => cases src <;> simp [delete_sel] <;> exact Or.inr hip

theorem delete_ip_tuple_payload_decodes (ip : IpAddr) (src : Bool) (hip : ip.wf) :
    decodeAttrs (delete_ip_tuple ip src).payload = Except.ok [delete_ip_attr ip src] := by
  have hb := delete_bin_length ip src hip
  show decodeAttrs (encodeAttr (delete_ip_attr ip src)) = _
  apply decodeAttrs_encode
  · show 4 + (delete_sel ip src).2.2.length < 65536
    omega
  all_goals cases ip <;> cases src <;>
    simp [typeField, delete_ip_attr, delete_sel, make_attr] <;> decide

theorem delete_proto_tuple_payload_decodes (proto : Nat) :
    decodeAttrs (delete_proto_tuple proto).payload = Except.ok [delete_proto_attr proto] := by
  show decodeAttrs (encodeAttr (delete_proto_attr proto)) = _
  apply decodeAttrs_encode <;>
    simp [typeField, delete_proto_attr, make_attr, u32NeBytes] <;> decide

theorem build_delete_payload_decodes (proto : Nat) (ip : IpAddr) (src : Bool) (hip : ip.wf) :
    decodeAttrs (build_delete proto ip src).payload =
      Except.ok [delete_ip_tuple ip src, delete_proto_tuple proto] := by
  have hb := delete_bin_length ip src hip
  show decodeAttrs (encodeAttr (delete_ip_tuple ip src) ++ encodeAttr (delete_proto_tuple proto)) = _
  apply decodeAttrs_encode_pair
  · show 4 + (encodeAttr (delete_ip_attr ip src)).length < 65536
    rw [encodeAttr_length]
    show 4 + align4 (4 + (delete_sel ip src).2.2.length) < 65536
    rcases hb with h | h <;> rw [h] <;> decide
  all_goals
    simp [typeField, delete_ip_tuple, delete_proto_tuple, delete_proto_attr, delete_ip_attr,
      make_attr, u32NeBytes, encodeAttr_length] <;> decide

theorem encode_build_delete_decodes (proto : Nat) (ip : IpAddr) (src : Bool) (hip : ip.wf) :
    decodeAttrs (encodeAttr (build_delete proto ip src)) =
      Except.ok [build_delete proto ip src] := by
  have hb := delete_bin_length ip src hip
  apply decodeAttrs_encode
  · show 4 + (encodeAttr (delete_ip_tuple ip src) ++ encodeAttr (delete_proto_tuple proto)).length
        < 65536
    simp only [List.length_append, encodeAttr_length, delete_ip_tuple, delete_proto_tuple,
      delete_proto_attr, delete_ip_attr, make_attr, u32NeBytes, List.length_cons, List.length_nil]
    rcases hb with h | h <;> rw [h] <;> decide
  all_goals cases ip <;> cases src <;>
    simp [typeField, build_delete, Nlattr.nest, make_attr, delete_sel] <;> decide

/-- Claim C10: every attribute constructed by `make_attr` has only its type
code and nested flag set in the 16-bit type field; the network-byte-order
flag (bit 14) is never set, for all inputs with a 14-bit type code. -/
theorem c10_make_attr_no_net_order (t : Nat) (nestFlag : Bool) (payload : List Nat)
    (h : t < 16384) :
    (make_attr t nestFlag payload).network_order = false ∧
    Nat.testBit (typeField (make_attr t nestFlag payload)) 14 = false ∧
    Nat.testBit (typeField (make_attr t nestFlag payload)) 15 = nestFlag ∧
    (∀ i, i < 14 → Nat.testBit (typeField (make_attr t nestFlag payload)) i = Nat.testBit t i) := by
  have h2 : (32768 : Nat) = 2 ^ 15 := by norm_num
  have ht : ∀ j, 14 ≤ j → Nat.testBit t j = false := by
    intro j h1
    apply Nat.testBit_lt_two_pow
    calc t < 16384 := h
    _ = 2 ^ 14 := by norm_num
    _ ≤ 2 ^ j := Nat.pow_le_pow_right (by norm_num) h1
  cases nestFlag with
  | false =>
    have e : typeField (make_attr t false payload) = t := by
      simp [typeField, make_attr]
    refine ⟨rfl, ?_, ?_, ?_⟩
    · rw [e]; exact ht 14 (by norm_num)
    · rw [e]; exact ht 15 (by norm_num)
    · intro i _; rw [e]
  | true =>
    have e : typeField (make_attr t true payload) = 2 ^ 15 ||| t := by
      simp [typeField, make_attr, h2]
    refine ⟨rfl, ?_, ?_, ?_⟩
    · rw [e, Nat.testBit_lor, Nat.testBit_two_pow_of_ne (by norm_num), ht 14 (by norm_num)]
      rfl
    · rw [e, Nat.testBit_lor, Nat.testBit_two_pow_self, ht 15 (by norm_num)]
      rfl
    · intro i hi
      rw [e, Nat.testBit_lor, Nat.testBit_two_pow_of_ne (by omega)]
      rw [Bool.false_or]

/-- Witness for C10 at a concrete input. -/
theorem c10_make_attr_no_net_order_witness :
    (1 : Nat) < 16384 ∧
    ((make_attr 1 true [7]).network_order = false ∧
      Nat.testBit (typeField (make_attr 1 true [7])) 14 = false) :=
  ⟨by decide,
   ⟨(c10_make_attr_no_net_order 1 true [7] (by decide)).1,
    (c10_make_attr_no_net_order 1 true [7] (by decide)).2.1⟩⟩

/-- Claim C8: for every attribute tree built by the command builder (any
protocol, address, direction), decoding the encoded byte form reproduces
the same type codes, nested flags and payload bytes at every nesting
level, padding-insensitively. -/
theorem c8_command_builder_roundtrip (proto : Nat) (ip : IpAddr) (src : Bool) (hip : ip.wf) :
    decodeAttrs (encodeAttr (build_delete proto ip src)) =
      Except.ok [build_delete proto ip src] ∧
    decodeAttrs (build_delete proto ip src).payload =
      Except.ok [delete_ip_tuple ip src, delete_proto_tuple proto] ∧
    decodeAttrs (delete_ip_tuple ip src).payload = Except.ok [delete_ip_attr ip src] ∧
    decodeAttrs (delete_proto_tuple proto).payload = Except.ok [delete_proto_attr proto] :=
  ⟨encode_build_delete_decodes proto ip src hip,
   build_delete_payload_decodes proto ip src hip,
   delete_ip_tuple_payload_decodes ip src hip,
   delete_proto_tuple_payload_decodes proto⟩

/-- Witness for C8 at a concrete input. -/
theorem c8_command_builder_roundtrip_witness :
    (IpAddr.v4 10 0 0 1).wf ∧
    decodeAttrs (encodeAttr (build_delete 6 (IpAddr.v4 10 0 0 1) true)) =
      Except.ok [build_delete 6 (IpAddr.v4 10 0 0 1) true] :=
  ⟨trivial, (c8_command_builder_roundtrip 6 (IpAddr.v4 10 0 0 1) true trivial).1⟩

/-- Claim C2 (counterexample): `build_delete(proto=6, address=10.0.0.1,
is_source=true)` does produce a `CtaTupleOrig` attribute with an IPv4-source
payload `[10,0,0,1]`, but the protocol-number payload is
`(6u32).to_ne_bytes() = [6,0,0,0]` on the little-endian host, not the bytes
`0x00 0x00 0x00 0x06` the claim states. -/
theorem c2_build_delete_v4_counterexample :
    decodeAttrs (build_delete 6 (IpAddr.v4 10 0 0 1) true).payload =
      Except.ok [make_attr CtaTupleIp true (encodeAttr (make_attr CtaIpv4Src false [10, 0, 0, 1])),
                 make_attr CtaTupleProto true (encodeAttr (make_attr CtaProtoNum false [6, 0, 0, 0]))] ∧
    decodeAttrs (delete_proto_tuple 6).payload =
      Except.ok [make_attr CtaProtoNum false [6, 0, 0, 0]] ∧
    (make_attr CtaProtoNum false [6, 0, 0, 0]).payload ≠ [0, 0, 0, 6] := by
  refine ⟨?_, ?_, by decide⟩ <;> decide

/-- Claim C2 (amended): `build_delete(proto=6, address=10.0.0.1,
is_source=true)` produces a top-level `CtaTupleOrig` attribute containing a
nested IP-tuple attribute whose IPv4-source payload is `[10,0,0,1]`
(`0x0A000001`) and a nested protocol-tuple attribute whose protocol-number
payload is the native-endian `u32` encoding of 6 — `[6,0,0,0]` on the
little-endian host modelled here ( `[0,0,0,6]` only on a big-endian host). -/
theorem c2_build_delete_v4 :
    (build_delete 6 (IpAddr.v4 10 0 0 1) true).type_code = CtaTupleOrig ∧
    (build_delete 6 (IpAddr.v4 10 0 0 1) true).nested = true ∧
    decodeAttrs (build_delete 6 (IpAddr.v4 10 0 0 1) true).payload =
      Except.ok [delete_ip_tuple (IpAddr.v4 10 0 0 1) true, delete_proto_tuple 6] ∧
    decodeAttrs (delete_ip_tuple (IpAddr.v4 10 0 0 1) true).payload =
      Except.ok [make_attr CtaIpv4Src false [10, 0, 0, 1]] ∧
    decodeAttrs (delete_proto_tuple 6).payload =
      Except.ok [make_attr CtaProtoNum false (u32NeBytes 6)] ∧
    u32NeBytes 6 = [6, 0, 0, 0] := by
  refine ⟨rfl, rfl, ?_, ?_, ?_, by decide⟩ <;> decide

/-- Claim C5: `build_delete(proto=6, address=::1, is_source=false)` selects
the reply-tuple top-level type (`CtaTupleReply`) and an IPv6-destination
attribute whose payload is exactly 16 bytes, fifteen zeros then `0x01`. -/
theorem c5_build_delete_v6 :
    (build_delete 6 (IpAddr.v6 [0, 0, 0, 0, 0, 0, 0, 0, 0, 0, 0, 0, 0, 0, 0, 1]) false).type_code
      = CtaTupleReply ∧
    decodeAttrs
        (delete_ip_tuple (IpAddr.v6 [0, 0, 0, 0, 0, 0, 0, 0, 0, 0, 0, 0, 0, 0, 0, 1]) false).payload
      = Except.ok
          [make_attr CtaIpv6Dst false [0, 0, 0, 0, 0, 0, 0, 0, 0, 0, 0, 0, 0, 0, 0, 1]] ∧
    (delete_ip_attr (IpAddr.v6 [0, 0, 0, 0, 0, 0, 0, 0, 0, 0, 0, 0, 0, 0, 0, 1]) false).payload.length
      = 16 := by
  refine ⟨rfl, ?_, by decide⟩
  decide

/-- Claim C3: the generic-netlink command code of every delete request is
the constant `AF_INET`, regardless of the address family of the target. -/
theorem c3_delete_cmd_always_af_inet (proto : Nat) (ip : IpAddr) (src : Bool) :
    (deleteRequest proto ip src).genl.cmd = AF_INET := rfl

/-- Witness for C3 at concrete inputs of both address families. -/
theorem c3_delete_cmd_always_af_inet_witness :
    (deleteRequest 6 (IpAddr.v4 10 0 0 1) true).genl.cmd = AF_INET ∧
    (deleteRequest 6 (IpAddr.v6 [0, 0, 0, 0, 0, 0, 0, 0, 0, 0, 0, 0, 0, 0, 0, 1]) false).genl.cmd
      = AF_INET :=
  ⟨c3_delete_cmd_always_af_inet 6 (IpAddr.v4 10 0 0 1) true,
   c3_delete_cmd_always_af_inet 6 (IpAddr.v6 [0, 0, 0, 0, 0, 0, 0, 0, 0, 0, 0, 0, 0, 0, 0, 1]) false⟩

/-- Claim C7: the dump request carries the `DUMP` flag with an empty
attribute set, the delete request carries `ACK | MATCH` with the `CtDelete`
message kind, and both generic-netlink headers use `NFNETLINK_V0`. -/
theorem c7_request_flags_and_versions :
    dumpRequest.flags = NlmF_DUMP ∧
    dumpRequest.genl.attrs = [] ∧
    dumpRequest.genl.version = NFNETLINK_V0 ∧
    dumpRequest.kind = CtNetlinkMessage.Conntrack ∧
    (∀ proto ip src, (deleteRequest proto ip src).flags = (NlmF_ACK ||| NlmF_MATCH) ∧
      (deleteRequest proto ip src).kind = CtNetlinkMessage.CtDelete ∧
      (deleteRequest proto ip src).genl.version = NFNETLINK_V0) :=
  ⟨rfl, rfl, rfl, rfl, fun _ _ _ => ⟨rfl, rfl, rfl⟩⟩

/-- Witness for C7 at a concrete delete request. -/
theorem c7_request_flags_and_versions_witness :
    (deleteRequest 6 (IpAddr.v4 1 2 3 4) true).flags = (NlmF_ACK ||| NlmF_MATCH) :=
  (c7_request_flags_and_versions.2.2.2.2 6 (IpAddr.v4 1 2 3 4) true).1

/-- Claim C1 (counterexample): in a dump whose first entry cannot be
decoded (`MissingTupleError`: reply tuple absent) and whose second entry
decodes to a `CtFlow`, `Conntrack::dump` returns the error — the remaining
successfully decodable entry is not returned, because `Flow::decode(handle)?`
aborts the receive loop. -/
theorem c1_dump_skip_counterexample :
    CtFlow.decode exGoodTree = Except.ok exFlow ∧
    CtFlow.decode exBadTree = Except.error DecodeError.MissingTupleError ∧
    Conntrack.dump [Except.ok ⟨some exBadTree⟩, Except.ok ⟨some exGoodTree⟩] =
      Except.error (CtError.Decode DecodeError.MissingTupleError) := by
  refine ⟨?_, ?_, ?_⟩ <;> decide

/-- Claim C1 (amended): a per-entry decode failure aborts the whole dump:
`Conntrack::dump` returns that entry's error, discarding every decoded
flow, instead of skipping the entry and continuing. -/
theorem c1_dump_aborts_on_decode_error (msg : NlMsg) (tree : List Nlattr) (e : DecodeError)
    (ys : List (Except CtError NlMsg))
    (hp : msg.nl_payload = some tree) (hd : CtFlow.decode tree = Except.error e) :
    Conntrack.dump (Except.ok msg :: ys) = Except.error (CtError.Decode e) := by
  simp [Conntrack.dump, hp, hd]

/-- Witness for the amended C1 at a concrete input. -/
theorem c1_dump_aborts_on_decode_error_witness :
    (⟨some exBadTree⟩ : NlMsg).nl_payload = some exBadTree ∧
    CtFlow.decode exBadTree = Except.error DecodeError.MissingTupleError ∧
    Conntrack.dump [Except.ok ⟨some exBadTree⟩, Except.ok ⟨some exGoodTree⟩] =
      Except.error (CtError.Decode DecodeError.MissingTupleError) :=
  ⟨rfl, by decide,
   c1_dump_aborts_on_decode_error ⟨some exBadTree⟩ exBadTree DecodeError.MissingTupleError
     [Except.ok ⟨some exGoodTree⟩] rfl (by decide)⟩

/-- Claim C9: a response message carrying no generic-netlink payload
contributes neither a flow nor an error to the dump: inserting it anywhere
leaves the result unchanged. -/
theorem c9_no_payload_skipped (xs ys : List (Except CtError NlMsg)) (msg : NlMsg)
    (h : msg.nl_payload = none) :
    Conntrack.dump (xs ++ Except.ok msg :: ys) = Conntrack.dump (xs ++ ys) := by
  induction xs with
  | nil => simp [Conntrack.dump, h]
  | cons x xs ih =>
    cases x with
    | error e => simp [Conntrack.dump]
    | ok m =>
      cases hm : m.nl_payload with
      | none =>
        simp only [List.cons_append, Conntrack.dump, hm]
        exact ih
      | some tree =>
        simp only [List.cons_append, Conntrack.dump, hm]
        cases CtFlow.decode tree with
        | error e => rfl
        | ok f =>
          show Except.map (fun fs => f :: fs) (Conntrack.dump (xs ++ Except.ok msg :: ys)) =
            Except.map (fun fs => f :: fs) (Conntrack.dump (xs ++ ys))
          rw [ih]

/-- Witness for C9 at a concrete input. -/
theorem c9_no_payload_skipped_witness :
    (⟨none⟩ : NlMsg).nl_payload = none ∧
    Conntrack.dump [Except.ok ⟨some exGoodTree⟩, Except.ok ⟨none⟩] =
      Conntrack.dump [Except.ok ⟨some exGoodTree⟩] :=
  ⟨rfl, c9_no_payload_skipped [Except.ok ⟨some exGoodTree⟩] [] ⟨none⟩ rfl⟩

/-- Claim C4 (counterexample): a delete whose send succeeds but whose
response sequence carries an error (for instance a kernel-reported error
code) still returns `Ok(())` — the error is only logged, not passed
through. -/
theorem c4_delete_error_counterexample :
    Conntrack.delete (Except.ok [Except.error (CtError.Transport 13)]) = Except.ok () ∧
    (Except.ok () : Except CtError Unit) ≠ Except.error (CtError.Transport 13) := by
  exact ⟨rfl, by decide⟩

/-- Claim C4 (amended): a transport error raised by the send call itself is
passed through unmodified, but every error arriving in the delete
acknowledgement/response sequence is discarded after logging: delete
returns success for every response sequence. -/
theorem c4_delete_error_handling (e : CtError) (rs : List (Except CtError RawMsg)) :
    Conntrack.delete (Except.error e) = Except.error e ∧
    Conntrack.delete (Except.ok rs) = Except.ok () :=
  ⟨rfl, rfl⟩

/-- Claim C6 (counterexample): a serialization failure while converting an
attribute to its byte-buffer form is not surfaced: `into_buffer` discards
the `to_bytes` result (`_ = self.to_bytes(...)`) and returns the
zero-initialized buffer, indistinguishable from a successful conversion
that produced zeros. -/
theorem c6_into_buffer_counterexample :
    into_buffer 8 (Except.error SerError.ioError) = List.replicate 8 0 ∧
    into_buffer 8 (Except.error SerError.ioError) =
      into_buffer 8 (Except.ok (List.replicate 8 0)) := by
  exact ⟨rfl, rfl⟩

/-- Claim C6 (amended): `IntoBuffer for Nlattr` silently swallows
serialization failures: the result of `to_bytes` is discarded, and on
failure the zero-filled buffer of the unpadded size is returned in place
of an error (and, per C4, delete response errors are also only logged). -/
theorem c6_into_buffer_discards_errors (n : Nat) (e : SerError) (bs : List Nat) :
    into_buffer n (Except.error e) = List.replicate n 0 ∧
    into_buffer n (Except.ok bs) = bs :=
  ⟨rfl, rfl⟩
